import Mathlib

/-!
Shallow embedding of the transport/registry core of the audio A/B comparison
tool (src/src/contexts/AudioContext.tsx).  Times, durations, volumes and
rates are modelled as rationals; track ids as naturals.  The asynchronous
parts of the code (the deferred resume scheduled by setActiveTrack, the play
promise, the per-frame ticker) are modelled as explicit pending-event queues
on the state, fired by dedicated step functions.
-/

/-- A marker on a track ({ id, time, label, color } in audio.types.ts). -/
structure Marker where
  id : Nat
  time : ℚ
  label : String
  color : String
deriving DecidableEq, Repr

/-- A registry entry (AudioTrack in audio.types.ts; the File and blob URL are
not observable by the claims and are omitted). -/
structure AudioTrack where
  id : Nat
  name : String
  duration : ℚ
  color : String
  markers : List Marker
deriving DecidableEq, Repr

/-- A media handle (HTMLAudioElement) as seen by the code: its paused flag,
current position, per-element volume and rate, and its readiness level. -/
structure Handle where
  paused : Bool
  time : ℚ
  volume : ℚ
  playbackRate : ℚ
  readyState : Nat
deriving DecidableEq, Repr

/-- The PlaybackState record of audio.types.ts. -/
structure PlaybackState where
  isPlaying : Bool
  currentTime : ℚ
  duration : ℚ
  volume : ℚ
  activeTrackId : Option Nat
  playbackRate : ℚ
  loop : Bool
  buffered : ℚ
  previousVolume : ℚ
deriving DecidableEq, Repr

/-- A deferred resume scheduled by setActiveTrack via setTimeout: the closure
captures the target id, the captured time, and the render snapshot volume and
rate it will re-apply before calling play. -/
structure PendingResume where
  id : Nat
  time : ℚ
  volume : ℚ
  playbackRate : ℚ
deriving DecidableEq, Repr

/-- The whole provider state: the track registry, the media element pool
(audioRefs, insertion ordered as a JS Map), the playback snapshot, the
currentPlayingRef, the live ticker loop (animationFrameRef target id), and the
queues of not-yet-fired asynchronous callbacks.  A pendingPlays entry records
a play() promise and whether it will resolve or reject. -/
structure AudioState where
  tracks : List AudioTrack
  audioRefs : List (Nat × Handle)
  playbackState : PlaybackState
  currentPlayingRef : Option Nat
  ticker : Option Nat
  pendingResumes : List PendingResume
  pendingPlays : List (Nat × Bool)
deriving DecidableEq, Repr

/-- Map.get on the pool (first entry with the key, as in a JS Map whose keys
are unique). -/
def refsGet : List (Nat × Handle) → Nat → Option Handle
  | [], _ => none
  | p :: rest, id => if p.1 = id then some p.2 else refsGet rest id

/-- Map.set on the pool (update in place, or append a new key). -/
def refsSet (refs : List (Nat × Handle)) (id : Nat) (h : Handle) :
    List (Nat × Handle) :=
  if refs.any (fun p => p.1 == id) then
    refs.map (fun p => if p.1 == id then (p.1, h) else p)
  else refs ++ [(id, h)]

/-- Mutation of the element fetched for a given id (audio.field = v). -/
def refsUpdate : List (Nat × Handle) → Nat → (Handle → Handle) →
    List (Nat × Handle)
  | [], _, _ => []
  | p :: rest, id, f =>
      (if p.1 = id then (p.1, f p.2) else p) :: refsUpdate rest id f

/-- Map.delete on the pool. -/
def refsDelete : List (Nat × Handle) → Nat → List (Nat × Handle)
  | [], _ => []
  | p :: rest, id =>
      if p.1 = id then refsDelete rest id else p :: refsDelete rest id

/-- audioRefs.current.forEach((audio) => { if (!audio.paused) audio.pause() }). -/
def refsPauseAll : List (Nat × Handle) → List (Nat × Handle)
  | [] => []
  | p :: rest => (p.1, { p.2 with paused := true }) :: refsPauseAll rest

/-- The initial playback snapshot of the provider (volume 0.7, written as the
rational mkRat 7 10 so that concrete states evaluate by kernel reduction). -/
def initialPlayback : PlaybackState :=
  { isPlaying := false, currentTime := 0, duration := 0, volume := mkRat 7 10,
    activeTrackId := none, playbackRate := 1, loop := false, buffered := 0,
    previousVolume := mkRat 7 10 }

/-- The provider state right after mount. -/
def initialState : AudioState :=
  { tracks := [], audioRefs := [], playbackState := initialPlayback,
    currentPlayingRef := none, ticker := none, pendingResumes := [],
    pendingPlays := [] }

/-- The two synchronous rejection reasons of addTrack. -/
inductive AddError
  | fileTooLarge
  | trackLimitExceeded
deriving DecidableEq, Repr

/-- 512 MiB in bytes (the maxSize constant of addTrack). -/
def maxFileSize : Nat := 512 * 1024 * 1024

/-- The trackLimit constant of addTrack. -/
def trackLimit : Nat := 10

/-- addTrack(file).  The environment-chosen values (Date.now id, decoded
duration, palette color) are parameters.  The size and limit checks return
before any mutation; otherwise a handle is created with the current snapshot
volume and rate, the track is appended, and, when no track was active, the
new track becomes active and the snapshot duration is set. -/
def addTrack (fileName : String) (fileSize : Nat) (newId : Nat)
    (duration : ℚ) (color : String) (s : AudioState) :
    AudioState × Option AddError :=
  if fileSize > maxFileSize then (s, some AddError.fileTooLarge)
  else if s.tracks.length ≥ trackLimit then (s, some AddError.trackLimitExceeded)
  else
    let audio : Handle :=
      { paused := true, time := 0, volume := s.playbackState.volume,
        playbackRate := s.playbackState.playbackRate, readyState := 4 }
    let track : AudioTrack :=
      { id := newId, name := fileName, duration := duration, color := color,
        markers := [] }
    let s1 := { s with audioRefs := refsSet s.audioRefs newId audio,
                       tracks := s.tracks ++ [track] }
    let s2 :=
      if s1.playbackState.activeTrackId = none then
        { s1 with playbackState :=
            { s1.playbackState with activeTrackId := some newId,
                                    duration := duration } }
      else s1
    (s2, none)

/-- removeTrack(id): pause and destroy the handle when it exists, filter the
registry, and, when the removed track was active, promote the first remaining
track (or none) and take over its duration (or 0).  The snapshot currentTime
and isPlaying are left untouched by the code. -/
def removeTrack (id : Nat) (s : AudioState) : AudioState :=
  let s1 :=
    match refsGet s.audioRefs id with
    | some _ =>
        { s with audioRefs :=
            refsDelete (refsUpdate s.audioRefs id
              (fun h => { h with paused := true })) id }
    | none => s
  let s2 := { s1 with tracks := s1.tracks.filter (fun t => t.id != id) }
  if s2.playbackState.activeTrackId = some id then
    let remaining := s.tracks.filter (fun t => t.id != id)
    { s2 with playbackState :=
        { s2.playbackState with
            activeTrackId := remaining.head?.map (fun t => t.id),
            duration := (remaining.head?.map (fun t => t.duration)).getD 0 } }
  else s2

/-- setActiveTrack(id), synchronous part: capture the outgoing time and the
playing intent, cancel the animation frame, pause every handle, clear
currentPlayingRef, then look up the incoming handle and track.  When either
is missing the function returns at that point (the pauses already happened).
Otherwise it applies the captured time and the snapshot rate and volume to
the incoming handle, updates the snapshot to the new track with
isPlaying=false, and, when the captured intent was playing, schedules the
deferred resume (the setTimeout closure, which captured id, time and the
snapshot volume and rate). -/
def setActiveTrack (id : Nat) (s : AudioState) : AudioState :=
  let currentTime :=
    ((s.playbackState.activeTrackId.bind (refsGet s.audioRefs)).map
      (fun h => h.time)).getD 0
  let wasPlaying := s.playbackState.isPlaying
  let s1 := { s with ticker := none,
                     audioRefs := refsPauseAll s.audioRefs,
                     currentPlayingRef := none }
  match refsGet s1.audioRefs id, s1.tracks.find? (fun t => t.id == id) with
  | some _, some track =>
      let s2 := { s1 with
        audioRefs := refsUpdate s1.audioRefs id
          (fun h => { h with time := currentTime,
                             playbackRate := s1.playbackState.playbackRate,
                             volume := s1.playbackState.volume }) }
      let s3 := { s2 with playbackState :=
          { s2.playbackState with activeTrackId := some id,
                                  duration := track.duration,
                                  currentTime := currentTime,
                                  isPlaying := false } }
      if wasPlaying then
        { s3 with pendingResumes := s3.pendingResumes ++
            [{ id := id, time := currentTime,
               volume := s.playbackState.volume,
               playbackRate := s.playbackState.playbackRate }] }
      else s3
  | _, _ => s1

/-- The oldest deferred resume fires (its 50 ms timeout elapses).  The
callback bails out when the element is gone or not ready (readyState below
2); otherwise it sets currentPlayingRef, re-applies the captured time and the
captured volume and rate, and calls play.  The parameter ok tells whether
that play attempt succeeds: on success the handle runs, isPlaying becomes
true and the ticker loop starts for the captured id; on rejection the catch
clears currentPlayingRef and isPlaying.  Note the callback never compares the
captured id with the live activeTrackId. -/
def fireResume (ok : Bool) (s : AudioState) : AudioState :=
  match s.pendingResumes with
  | [] => s
  | r :: rest =>
      let s1 := { s with pendingResumes := rest }
      match refsGet s1.audioRefs r.id with
      | none => s1
      | some h =>
          if h.readyState < 2 then s1
          else
            let s2 := { s1 with
              currentPlayingRef := some r.id,
              audioRefs := refsUpdate s1.audioRefs r.id
                (fun h0 => { h0 with time := r.time, volume := r.volume,
                                     playbackRate := r.playbackRate }) }
            if ok then
              { s2 with audioRefs := refsUpdate s2.audioRefs r.id
                          (fun h0 => { h0 with paused := false }),
                        playbackState :=
                          { s2.playbackState with isPlaying := true },
                        ticker := some r.id }
            else
              { s2 with currentPlayingRef := none,
                        playbackState :=
                          { s2.playbackState with isPlaying := false } }

/-- play(), synchronous part: warn-and-return when there is no active track
or no handle for it; otherwise cancel the animation frame, set
currentPlayingRef, set isPlaying to true first, and call play on the handle.
The parameter ok is the fate of the attempt: on success the element leaves
the paused state at once; on rejection it stays paused.  The promise
settlement itself is queued and fired later by firePlay. -/
def playCall (ok : Bool) (s : AudioState) : AudioState :=
  match s.playbackState.activeTrackId with
  | none => s
  | some trackId =>
      match refsGet s.audioRefs trackId with
      | none => s
      | some _ =>
          let s1 := { s with ticker := none,
                             currentPlayingRef := some trackId,
                             playbackState :=
                               { s.playbackState with isPlaying := true } }
          let s2 :=
            if ok then
              { s1 with audioRefs := refsUpdate s1.audioRefs trackId
                          (fun h => { h with paused := false }) }
            else s1
          { s2 with pendingPlays := s2.pendingPlays ++ [(trackId, ok)] }

/-- The oldest play() promise settles.  On resolution the then-branch starts
the ticker loop for the captured id; on rejection the catch clears
currentPlayingRef and reverts isPlaying to false.  No retry is issued. -/
def firePlay (s : AudioState) : AudioState :=
  match s.pendingPlays with
  | [] => s
  | (trackId, ok) :: rest =>
      let s1 := { s with pendingPlays := rest }
      if ok then { s1 with ticker := some trackId }
      else
        { s1 with currentPlayingRef := none,
                  playbackState :=
                    { s1.playbackState with isPlaying := false } }

/-- pause(): when the active track has a handle, pause it, clear
currentPlayingRef, set isPlaying to false and cancel the animation frame. -/
def pause (s : AudioState) : AudioState :=
  match s.playbackState.activeTrackId with
  | none => s
  | some trackId =>
      match refsGet s.audioRefs trackId with
      | none => s
      | some _ =>
          { s with audioRefs := refsUpdate s.audioRefs trackId
                     (fun h => { h with paused := true }),
                   currentPlayingRef := none,
                   playbackState :=
                     { s.playbackState with isPlaying := false },
                   ticker := none }

/-- seek(time): when the active track has a handle, assign the raw time to
the handle and to the snapshot currentTime.  The code performs no clamping
on either assignment. -/
def seek (time : ℚ) (s : AudioState) : AudioState :=
  match s.playbackState.activeTrackId with
  | none => s
  | some trackId =>
      match refsGet s.audioRefs trackId with
      | none => s
      | some _ =>
          { s with audioRefs := refsUpdate s.audioRefs trackId
                     (fun h => { h with time := time }),
                   playbackState :=
                     { s.playbackState with currentTime := time } }

/-- setVolume(volume): assign the raw value to every handle in the pool and
to the snapshot.  No clamping is performed. -/
def setVolume (volume : ℚ) (s : AudioState) : AudioState :=
  { s with audioRefs := s.audioRefs.map
             (fun p => (p.1, { p.2 with volume := volume })),
           playbackState := { s.playbackState with volume := volume } }

/-- setPlaybackRate(rate): assign the raw value to every handle in the pool
and to the snapshot.  No clamping is performed. -/
def setPlaybackRate (rate : ℚ) (s : AudioState) : AudioState :=
  { s with audioRefs := s.audioRefs.map
             (fun p => (p.1, { p.2 with playbackRate := rate })),
           playbackState := { s.playbackState with playbackRate := rate } }

/-- nextTrack(): findIndex yields -1 when the active id is absent; the next
index is (currentIndex + 1) mod length, so a stale active id lands on index
0 and the function switches there. -/
def nextTrack (s : AudioState) : AudioState :=
  if s.tracks.length = 0 then s
  else
    let currentIndex : Int :=
      match s.tracks.findIdx? (fun t => some t.id == s.playbackState.activeTrackId) with
      | some i => (i : Int)
      | none => -1
    let nextIndex := (currentIndex + 1) % (s.tracks.length : Int)
    match s.tracks.get? nextIndex.toNat with
    | some t => setActiveTrack t.id s
    | none => s

/-- previousTrack(): with a stale active id, findIndex yields -1, the guard
currentIndex === 0 is false, so prevIndex becomes -2 and the code reads
tracks[-2].id, which throws a TypeError.  The crash is modelled as none. -/
def previousTrack (s : AudioState) : Option AudioState :=
  if s.tracks.length = 0 then some s
  else
    let currentIndex : Int :=
      match s.tracks.findIdx? (fun t => some t.id == s.playbackState.activeTrackId) with
      | some i => (i : Int)
      | none => -1
    let prevIndex : Int :=
      if currentIndex == 0 then (s.tracks.length : Int) - 1 else currentIndex - 1
    if prevIndex < 0 then none
    else
      match s.tracks.get? prevIndex.toNat with
      | some t => some (setActiveTrack t.id s)
      | none => none

/-- toggleLoop(): flip the loop flag. -/
def toggleLoop (s : AudioState) : AudioState :=
  { s with playbackState :=
      { s.playbackState with loop := !s.playbackState.loop } }

/-- The ended-event listener registered by addTrack for track id, run against
the current snapshot: it acts only when the firing track is still the active
one; with loop on it rewinds the element to 0 and replays it (the replay is
modelled as succeeding) returning the snapshot unchanged; with loop off it
clears currentPlayingRef and sets isPlaying to false; otherwise it leaves
everything alone. -/
def endedListener (id : Nat) (s : AudioState) : AudioState :=
  if s.playbackState.activeTrackId = some id then
    if s.playbackState.loop then
      { s with audioRefs := refsUpdate s.audioRefs id
                 (fun h => { h with time := 0, paused := false }) }
    else
      { s with currentPlayingRef := none,
               playbackState :=
                 { s.playbackState with isPlaying := false } }
  else s

/-- Environment step, not program code: the media element for id reaches its
natural end, so the platform puts it in the paused state (its position stays
at the duration) just before the ended event is dispatched. -/
def platformEnded (id : Nat) (s : AudioState) : AudioState :=
  { s with audioRefs := refsUpdate s.audioRefs id
             (fun h => { h with paused := true }) }

/-- One round of the updateTime loop whose closure captured the ticker target
id: when currentPlayingRef still equals that id and the element it points to
is unpaused, copy its time into the snapshot (only when the track is still
active) and reschedule; otherwise the loop ends without rescheduling. -/
def tick (s : AudioState) : AudioState :=
  match s.ticker with
  | none => s
  | some tid =>
      match s.currentPlayingRef with
      | none => { s with ticker := none }
      | some cur =>
          if cur = tid then
            match refsGet s.audioRefs cur with
            | none => { s with ticker := none }
            | some h =>
                if h.paused then { s with ticker := none }
                else if s.playbackState.activeTrackId = some cur then
                  { s with playbackState :=
                      { s.playbackState with currentTime := h.time } }
                else s
          else { s with ticker := none }

/-- One track (id 1, 120 s) loaded into the fresh provider; it is auto-active. -/
def sOne : AudioState :=
  (addTrack "a.wav" 1000 1 120 "#3B82F6" initialState).1

/-- Tracks 1 (120 s), 2 (95 s) and 3 (100 s) loaded; track 1 is active. -/
def sThree : AudioState :=
  (addTrack "c.wav" 1000 3 100 "#F59E0B"
    ((addTrack "b.wav" 1000 2 95 "#10B981"
      ((addTrack "a.wav" 1000 1 120 "#3B82F6" initialState).1)).1)).1

/-- Play track 1, switch to track 2 (scheduling its deferred resume), call
play() on track 2, switch to track 3 (scheduling its deferred resume), then
let both deferred resumes fire successfully in order. -/
def twoResumeTrace : AudioState :=
  fireResume true (fireResume true
    (setActiveTrack 3 (playCall true
      (setActiveTrack 2 (playCall true sThree)))))

/-- Play track 1, switch to track 2 (scheduling its deferred resume), switch
to track 3 before that resume fires, then let it fire successfully. -/
def staleResumeTrace : AudioState :=
  fireResume true (setActiveTrack 3 (setActiveTrack 2 (playCall true sThree)))

/-- Track 1 loaded, but the recorded active id is a stale 99 (the situation
the claim describes: the id is no longer in the track list). -/
def sStaleActive : AudioState :=
  { sOne with playbackState :=
      { sOne.playbackState with activeTrackId := some 99 } }

/-- Track 1 loaded and playing (play() succeeded). -/
def sOnePlaying : AudioState := playCall true sOne

/-- Tracks 1 (120 s) and 2 (20 s) loaded, playhead seeked to 30 s; track 1 is
active. -/
def sSeeked : AudioState :=
  seek 30 ((addTrack "b.wav" 1000 2 20 "#10B981"
    ((addTrack "a.wav" 1000 1 120 "#3B82F6" initialState).1)).1)

/-- Ten tracks (ids 1..10) loaded one after the other. -/
def sTen : AudioState :=
  (List.range 10).foldl
    (fun s i => (addTrack "t.wav" 1000 (i + 1) 60 "#3B82F6" s).1) initialState

/-- play() was called on the one-track state and the attempt is fated to be
rejected by the platform; this is the observable state before the rejection
callback has run. -/
def sPlayRejected : AudioState := playCall false sOne

/-- Three tracks loaded and track 1 playing (play() succeeded). -/
def sThreePlaying : AudioState := playCall true sThree

/-- Track 1 with loop on, playing, seeked to its 120 s end, after the
platform paused the element at its natural end (just before the ended event
is dispatched). -/
def sLoopEnded : AudioState :=
  platformEnded 1 (playCall true (seek 120 (toggleLoop sOne)))

/-! Pool lookup lemmas, followed by the claim theorems and their
counterexamples and witnesses. -/

theorem refsGet_pauseAll (refs : List (Nat × Handle)) (j : Nat) :
    refsGet (refsPauseAll refs) j =
      (refsGet refs j).map (fun h => { h with paused := true }) := by
  induction refs with
  | nil => rfl
  | cons p rest ih =>
      by_cases hp : p.1 = j
      · simp [refsGet, refsPauseAll, hp]
      · simpa [refsGet, refsPauseAll, hp] using ih

theorem refsGet_update (refs : List (Nat × Handle)) (i : Nat)
    (f : Handle → Handle) (j : Nat) :
    refsGet (refsUpdate refs i f) j =
      if j = i then (refsGet refs i).map f else refsGet refs j := by
  induction refs with
  | nil => simp [refsGet, refsUpdate]
  | cons p rest ih =>
      by_cases hp : p.1 = i
      · by_cases hj : j = i
        · simp [refsGet, refsUpdate, hp, hj]
        · have hpj : ¬p.1 = j := fun hc => hj (hc ▸ hp)
          have hij : ¬i = j := fun hc => hj hc.symm
          simp [refsGet, refsUpdate, hp, hj, hpj, hij, ih]
      · by_cases hj : j = i
        · subst hj
          simp [refsGet, refsUpdate, hp, ih]
        · by_cases hpj : p.1 = j
          · simp [refsGet, refsUpdate, hp, hpj, hj]
          · simp [refsGet, refsUpdate, hp, hpj, hj, ih]

theorem refsGet_delete_self (refs : List (Nat × Handle)) (i : Nat) :
    refsGet (refsDelete refs i) i = none := by
  induction refs with
  | nil => rfl
  | cons p rest ih =>
      by_cases hp : p.1 = i
      · simpa [refsDelete, hp] using ih
      · simpa [refsGet, refsDelete, hp] using ih

/-- C1: the claim fails on the code.  After the call sequence play(),
setActiveTrack(2), play(), setActiveTrack(3), the deferred resumes scheduled
for tracks 2 and 3 are both still pending; when they fire (twoResumeTrace),
neither re-checks the live active-track id, so the handles of tracks 2 and 3
are both left unpaused: two media handles advance simultaneously. -/
theorem two_handles_running_after_stale_resume :
    (twoResumeTrace.audioRefs.filter (fun p => !p.2.paused)).length = 2 ∧
    (refsGet twoResumeTrace.audioRefs 2).map (fun h => h.paused) = some false ∧
    (refsGet twoResumeTrace.audioRefs 3).map (fun h => h.paused) = some false := by
  decide

/-- C3: the claim fails on the code.  In staleResumeTrace, setActiveTrack(2)
is followed by setActiveTrack(3) before track 2's deferred resume fires; the
resume callback checks only that the element exists and is ready, never the
live active-track id, so it resumes track 2 anyway: the final state has
track 3 active but track 2's handle running, isPlaying true, and the ticker
targeting track 2.  Track 3 is not running at all (the interim
isPlaying=false written by the first switch meant the second switch captured
a non-playing intent and scheduled no resume). -/
theorem stale_resume_not_abandoned :
    staleResumeTrace.playbackState.activeTrackId = some 3 ∧
    (refsGet staleResumeTrace.audioRefs 2).map (fun h => h.paused) = some false ∧
    (refsGet staleResumeTrace.audioRefs 3).map (fun h => h.paused) = some true ∧
    staleResumeTrace.ticker = some 2 ∧
    staleResumeTrace.playbackState.isPlaying = true := by
  decide

/-- C8: the claim fails on the code.  previousTrack() with a stale active id
computes index -2 and reads tracks[-2].id, a TypeError (modelled as none);
nextTrack() in the same situation switches to the first track instead of
doing nothing; and setActiveTrack(99) with a missing id pauses every handle
and clears the playing ref before bailing out, leaving isPlaying=true with
the handle paused — none of these is a silent no-op. -/
theorem stale_id_ops_crash_or_mutate :
    previousTrack sStaleActive = none ∧
    (nextTrack sStaleActive).playbackState.activeTrackId = some 1 ∧
    setActiveTrack 99 sOnePlaying ≠ sOnePlaying ∧
    (refsGet (setActiveTrack 99 sOnePlaying).audioRefs 1).map (fun h => h.paused) =
      some true ∧
    (setActiveTrack 99 sOnePlaying).playbackState.isPlaying = true := by
  decide

/-- C4 counterexample: seek(130) on a 120 s track stores the raw 130 into the
snapshot currentTime and into the handle; no clamping to [0, duration]
happens anywhere in the function. -/
theorem seek_does_not_clamp :
    (seek 130 sOne).playbackState.currentTime = 130 ∧
    (seek 130 sOne).playbackState.duration = 120 ∧
    ¬((seek 130 sOne).playbackState.currentTime ≤
        (seek 130 sOne).playbackState.duration) ∧
    (refsGet (seek 130 sOne).audioRefs 1).map (fun h => h.time) = some 130 := by
  decide

/-- C4 amended: for every state with an active track that has a handle,
seek(t) assigns the raw t to that handle and sets the snapshot currentTime to
the raw t in the very state it returns (no ticker involvement); it performs
no clamping. -/
theorem seek_applies_raw_time_immediately (time : ℚ) (s : AudioState)
    (tid : Nat) (h : Handle)
    (hact : s.playbackState.activeTrackId = some tid)
    (hg : refsGet s.audioRefs tid = some h) :
    refsGet (seek time s).audioRefs tid = some { h with time := time } ∧
    (seek time s).playbackState = { s.playbackState with currentTime := time } ∧
    (seek time s).ticker = s.ticker := by
  simp [seek, hact, hg, refsGet_update]

/-- C4 witness: seek(30) on the one-track state, evaluated. -/
theorem seek_applies_raw_time_witness :
    refsGet (seek 30 sOne).audioRefs 1 =
      some { paused := true, time := 30, volume := mkRat 7 10, playbackRate := 1,
             readyState := 4 } ∧
    (seek 30 sOne).playbackState =
      { sOne.playbackState with currentTime := 30 } ∧
    (seek 30 sOne).ticker = sOne.ticker :=
  seek_applies_raw_time_immediately 30 sOne 1
    { paused := true, time := 0, volume := mkRat 7 10, playbackRate := 1,
      readyState := 4 } (by decide) (by decide)

/-- C5 counterexample: removing the active track promotes the first remaining
track and takes over its duration, but the snapshot currentTime is left at
its old value (here 30 s against the new 20 s duration), so it is not reset
to match the newly active track. -/
theorem removeTrack_leaves_currentTime :
    (removeTrack 1 sSeeked).playbackState.activeTrackId = some 2 ∧
    (removeTrack 1 sSeeked).playbackState.duration = 20 ∧
    (removeTrack 1 sSeeked).playbackState.currentTime = 30 ∧
    ¬((removeTrack 1 sSeeked).playbackState.currentTime ≤
        (removeTrack 1 sSeeked).playbackState.duration) := by
  decide

/-- C5 amended: for every state whose active track is the removed id,
removeTrack(id) filters the registry, promotes the first remaining track (or
none) to active, resets duration to that track's duration (or 0), destroys
the removed handle — and leaves currentTime unchanged. -/
theorem removeTrack_promotes_first_remaining (id : Nat) (s : AudioState)
    (hact : s.playbackState.activeTrackId = some id) :
    (removeTrack id s).tracks = s.tracks.filter (fun t => t.id != id) ∧
    (removeTrack id s).playbackState.activeTrackId =
      ((s.tracks.filter (fun t => t.id != id)).head?).map (fun t => t.id) ∧
    (removeTrack id s).playbackState.duration =
      (((s.tracks.filter (fun t => t.id != id)).head?).map
        (fun t => t.duration)).getD 0 ∧
    (removeTrack id s).playbackState.currentTime =
      s.playbackState.currentTime ∧
    refsGet (removeTrack id s).audioRefs id = none := by
  cases hg : refsGet s.audioRefs id with
  | some h => simp [removeTrack, hg, hact, refsGet_delete_self]
  | none => simp [removeTrack, hg, hact]

/-- C5 amended-claim witness: removing active track 1 from the seeked
two-track state, evaluated. -/
theorem removeTrack_promotes_witness :
    (removeTrack 1 sSeeked).tracks =
      sSeeked.tracks.filter (fun t => t.id != 1) ∧
    (removeTrack 1 sSeeked).playbackState.activeTrackId =
      ((sSeeked.tracks.filter (fun t => t.id != 1)).head?).map (fun t => t.id) ∧
    (removeTrack 1 sSeeked).playbackState.duration =
      (((sSeeked.tracks.filter (fun t => t.id != 1)).head?).map
        (fun t => t.duration)).getD 0 ∧
    (removeTrack 1 sSeeked).playbackState.currentTime =
      sSeeked.playbackState.currentTime ∧
    refsGet (removeTrack 1 sSeeked).audioRefs 1 = none :=
  removeTrack_promotes_first_remaining 1 sSeeked (by decide)

/-- C9 counterexample: setVolume(2) stores the raw 2 into the snapshot and
into every handle; nothing clamps down to the valid [0, 1] range. -/
theorem setVolume_does_not_clamp :
    (setVolume 2 sOne).playbackState.volume = 2 ∧
    (refsGet (setVolume 2 sOne).audioRefs 1).map (fun h => h.volume) = some 2 ∧
    ¬((setVolume 2 sOne).playbackState.volume ≤ 1) := by
  decide

theorem refsGet_map_volume (refs : List (Nat × Handle)) (v : ℚ) (j : Nat) :
    refsGet (refs.map (fun p => (p.1, { p.2 with volume := v }))) j =
      (refsGet refs j).map (fun h => { h with volume := v }) := by
  induction refs with
  | nil => rfl
  | cons p rest ih =>
      by_cases hp : p.1 = j
      · simp [refsGet, hp]
      · simpa [refsGet, hp] using ih

theorem refsGet_map_rate (refs : List (Nat × Handle)) (r : ℚ) (j : Nat) :
    refsGet (refs.map (fun p => (p.1, { p.2 with playbackRate := r }))) j =
      (refsGet refs j).map (fun h => { h with playbackRate := r }) := by
  induction refs with
  | nil => rfl
  | cons p rest ih =>
      by_cases hp : p.1 = j
      · simp [refsGet, hp]
      · simpa [refsGet, hp] using ih

/-- C9 amended: setVolume(v) and setPlaybackRate(r) apply the raw,
unclamped value to every handle in the pool — active or not — and store the
raw value in the snapshot. -/
theorem volume_and_rate_apply_uniformly (v r : ℚ) (s : AudioState)
    (j : Nat) (h : Handle) (hg : refsGet s.audioRefs j = some h) :
    refsGet (setVolume v s).audioRefs j = some { h with volume := v } ∧
    (setVolume v s).playbackState = { s.playbackState with volume := v } ∧
    refsGet (setPlaybackRate r s).audioRefs j = some { h with playbackRate := r } ∧
    (setPlaybackRate r s).playbackState =
      { s.playbackState with playbackRate := r } := by
  simp [setVolume, setPlaybackRate, refsGet_map_volume, refsGet_map_rate, hg]

/-- C9 amended-claim witness: setVolume(2) and setPlaybackRate(3) on the
three-track state, read back on the inactive handle 2. -/
theorem volume_and_rate_witness :
    refsGet (setVolume 2 sThree).audioRefs 2 =
      some { paused := true, time := 0, volume := 2, playbackRate := 1,
             readyState := 4 } ∧
    (setVolume 2 sThree).playbackState =
      { sThree.playbackState with volume := 2 } ∧
    refsGet (setPlaybackRate 3 sThree).audioRefs 2 =
      some { paused := true, time := 0, volume := mkRat 7 10, playbackRate := 3,
             readyState := 4 } ∧
    (setPlaybackRate 3 sThree).playbackState =
      { sThree.playbackState with playbackRate := 3 } :=
  volume_and_rate_apply_uniformly 2 3 sThree 2
    { paused := true, time := 0, volume := mkRat 7 10, playbackRate := 1,
      readyState := 4 } (by decide)

/-- C6: addTrack validates synchronously before any mutation: an oversized
file is rejected with fileTooLarge and a full registry (10 tracks) rejects
with trackLimitExceeded; in both cases the returned state is exactly the
input state, so the registry keeps its contents and no handle (and hence no
URL resource) is created. -/
theorem addTrack_rejects_before_mutation (fileName : String) (fileSize : Nat)
    (newId : Nat) (duration : ℚ) (color : String) (s : AudioState) :
    (fileSize > maxFileSize →
      addTrack fileName fileSize newId duration color s =
        (s, some AddError.fileTooLarge)) ∧
    (fileSize ≤ maxFileSize → trackLimit ≤ s.tracks.length →
      addTrack fileName fileSize newId duration color s =
        (s, some AddError.trackLimitExceeded)) := by
  constructor
  · intro hbig
    simp [addTrack, hbig]
  · intro hsmall hfull
    simp [addTrack, Nat.not_lt.mpr hsmall, hfull]

/-- C6 witness: a 600 MiB file is rejected on the fresh provider, and an
11th track is rejected on the full ten-track registry, both with the state
returned unchanged. -/
theorem addTrack_rejects_witness :
    addTrack "big.wav" (600 * 1024 * 1024) 1 60 "#3B82F6" initialState =
      (initialState, some AddError.fileTooLarge) ∧
    addTrack "t11.wav" 1000 11 60 "#3B82F6" sTen =
      (sTen, some AddError.trackLimitExceeded) :=
  ⟨(addTrack_rejects_before_mutation "big.wav" (600 * 1024 * 1024) 1 60
      "#3B82F6" initialState).1 (by decide),
   (addTrack_rejects_before_mutation "t11.wav" 1000 11 60
      "#3B82F6" sTen).2 (by decide) (by decide)⟩

/-- C7 counterexample: play() sets isPlaying to true first and only reverts
in the promise catch, so between the call and the rejection there is an
observable state with isPlaying=true while the active handle is paused (not
running) — refuting the claim's at-no-observable-point clause. -/
theorem isPlaying_true_before_rejection :
    sPlayRejected.playbackState.isPlaying = true ∧
    sPlayRejected.playbackState.activeTrackId = some 1 ∧
    (refsGet sPlayRejected.audioRefs 1).map (fun h => h.paused) = some true := by
  decide

/-- C7 amended: when the play attempt fails, once the rejection callback has
run the state is back to Paused: isPlaying=false, the playing ref cleared,
the handle untouched (still paused as it was), no pending play attempt left
and no ticker running — and nothing retries.  Transiently, before the
callback, isPlaying was already true. -/
theorem play_failure_reverts_no_retry (s : AudioState) (tid : Nat) (h : Handle)
    (hact : s.playbackState.activeTrackId = some tid)
    (hg : refsGet s.audioRefs tid = some h)
    (hpp : s.pendingPlays = []) :
    (firePlay (playCall false s)).playbackState =
      { s.playbackState with isPlaying := false } ∧
    (firePlay (playCall false s)).currentPlayingRef = none ∧
    refsGet (firePlay (playCall false s)).audioRefs tid = some h ∧
    (firePlay (playCall false s)).pendingPlays = [] ∧
    (firePlay (playCall false s)).pendingResumes = s.pendingResumes ∧
    (firePlay (playCall false s)).ticker = none := by
  simp [playCall, firePlay, hact, hg, hpp]

/-- C7 amended-claim witness: the failed attempt on the one-track state,
after its rejection fired, evaluated. -/
theorem play_failure_reverts_witness :
    (firePlay (playCall false sOne)).playbackState =
      { sOne.playbackState with isPlaying := false } ∧
    (firePlay (playCall false sOne)).currentPlayingRef = none ∧
    refsGet (firePlay (playCall false sOne)).audioRefs 1 =
      some { paused := true, time := 0, volume := mkRat 7 10, playbackRate := 1,
             readyState := 4 } ∧
    (firePlay (playCall false sOne)).pendingPlays = [] ∧
    (firePlay (playCall false sOne)).pendingResumes = sOne.pendingResumes ∧
    (firePlay (playCall false sOne)).ticker = none :=
  play_failure_reverts_no_retry sOne 1
    { paused := true, time := 0, volume := mkRat 7 10, playbackRate := 1,
      readyState := 4 } (by decide) (by decide) (by decide)

/-- C2: switching from the active track a (handle ha) to a loaded track b
(handle hb, registry entry tb): the outgoing handle is stopped, the incoming
handle receives the captured time ha.time and the current volume and rate,
the snapshot now references b with isPlaying=false as the interim value and
currentTime equal to the captured time — and, when a was playing, the
scheduled resume (fired with a successful play, the no-error assumption)
leaves b's handle running at the captured time with isPlaying=true. -/
theorem setActiveTrack_switch_spec (b : Nat) (s : AudioState) (a : Nat)
    (ha hb : Handle) (tb : AudioTrack)
    (hact : s.playbackState.activeTrackId = some a)
    (hga : refsGet s.audioRefs a = some ha)
    (hgb : refsGet s.audioRefs b = some hb)
    (htb : s.tracks.find? (fun t => t.id == b) = some tb)
    (hready : 2 ≤ hb.readyState)
    (hpend : s.pendingResumes = []) :
    ((refsGet (setActiveTrack b s).audioRefs a).map (fun h => h.paused) =
      some true) ∧
    (refsGet (setActiveTrack b s).audioRefs b =
      some { hb with paused := true, time := ha.time,
                     volume := s.playbackState.volume,
                     playbackRate := s.playbackState.playbackRate }) ∧
    ((setActiveTrack b s).playbackState =
      { s.playbackState with activeTrackId := some b,
                             duration := tb.duration,
                             currentTime := ha.time,
                             isPlaying := false }) ∧
    (s.playbackState.isPlaying = true →
      (refsGet (fireResume true (setActiveTrack b s)).audioRefs b =
        some { hb with paused := false, time := ha.time,
                       volume := s.playbackState.volume,
                       playbackRate := s.playbackState.playbackRate }) ∧
      (fireResume true (setActiveTrack b s)).playbackState.isPlaying = true ∧
      (fireResume true (setActiveTrack b s)).playbackState.activeTrackId =
        some b ∧
      (fireResume true (setActiveTrack b s)).currentPlayingRef = some b ∧
      (fireResume true (setActiveTrack b s)).ticker = some b) := by
  cases hw : s.playbackState.isPlaying with
  | false =>
      refine ⟨?_, ?_, ?_, ?_⟩
      · by_cases hab : a = b <;>
          simp [setActiveTrack, hact, hga, refsGet_pauseAll, hgb, htb, hw,
            refsGet_update, hab]
      · simp [setActiveTrack, hact, hga, refsGet_pauseAll, hgb, htb, hw,
          refsGet_update]
      · simp [setActiveTrack, hact, hga, refsGet_pauseAll, hgb, htb, hw]
      · intro hc
        simp [hw] at hc
  | true =>
      refine ⟨?_, ?_, ?_, fun _ => ?_⟩
      · by_cases hab : a = b <;>
          simp [setActiveTrack, hact, hga, refsGet_pauseAll, hgb, htb, hw,
            refsGet_update, hab]
      · simp [setActiveTrack, hact, hga, refsGet_pauseAll, hgb, htb, hw,
          refsGet_update]
      · simp [setActiveTrack, hact, hga, refsGet_pauseAll, hgb, htb, hw]
      · simp [setActiveTrack, fireResume, hact, hga, refsGet_pauseAll, hgb,
          htb, hw, hpend, refsGet_update, Nat.not_lt.mpr hready]

/-- C2 witness: switching from playing track 1 (at time 0) to track 2 on the
three-track state, with the resume fired successfully, evaluated. -/
theorem setActiveTrack_switch_witness :
    ((refsGet (setActiveTrack 2 sThreePlaying).audioRefs 1).map
        (fun h => h.paused) = some true) ∧
    ((setActiveTrack 2 sThreePlaying).playbackState =
      { sThreePlaying.playbackState with activeTrackId := some 2,
                                         duration := 95, currentTime := 0,
                                         isPlaying := false }) ∧
    (refsGet (fireResume true (setActiveTrack 2 sThreePlaying)).audioRefs 2 =
      some { paused := false, time := 0, volume := mkRat 7 10,
             playbackRate := 1, readyState := 4 }) ∧
    (fireResume true (setActiveTrack 2 sThreePlaying)).playbackState.isPlaying =
      true := by
  have hmain := setActiveTrack_switch_spec 2 sThreePlaying 1
    { paused := false, time := 0, volume := mkRat 7 10, playbackRate := 1,
      readyState := 4 }
    { paused := true, time := 0, volume := mkRat 7 10, playbackRate := 1,
      readyState := 4 }
    { id := 2, name := "b.wav", duration := 95, color := "#10B981",
      markers := [] }
    (by decide) (by decide) (by decide) (by decide) (by decide) (by decide)
  exact ⟨hmain.1, hmain.2.2.1, (hmain.2.2.2 (by decide)).1,
    (hmain.2.2.2 (by decide)).2.1⟩

/-- C10: the ended listener for the active track a: with loop on it rewinds
a's handle to 0 and restarts it, leaving the snapshot untouched (so
isPlaying stays true when it was true); with loop off it only flips
isPlaying to false and clears the playing ref, leaving the handle and the
snapshot currentTime where they were (at the duration when the track ended
naturally); and an ended event from any non-active track changes nothing at
all. -/
theorem ended_event_spec (s : AudioState) (a : Nat) (h : Handle)
    (hact : s.playbackState.activeTrackId = some a)
    (hg : refsGet s.audioRefs a = some h) :
    (s.playbackState.loop = true →
      refsGet (endedListener a s).audioRefs a =
        some { h with time := 0, paused := false } ∧
      (endedListener a s).playbackState = s.playbackState) ∧
    (s.playbackState.loop = false →
      (endedListener a s).playbackState =
        { s.playbackState with isPlaying := false } ∧
      (endedListener a s).currentPlayingRef = none ∧
      refsGet (endedListener a s).audioRefs a = some h) ∧
    (∀ b, s.playbackState.activeTrackId ≠ some b → endedListener b s = s) := by
  refine ⟨fun hl => ?_, fun hl => ?_, fun b hb => ?_⟩
  · simp [endedListener, hact, hl, refsGet_update, hg]
  · simp [endedListener, hact, hl, hg]
  · simp [endedListener, hb]

/-- C10 witness: the ended event on the looping one-track state rewinds and
restarts the handle with the snapshot (isPlaying=true) untouched, and an
ended event for a non-active id is ignored, evaluated. -/
theorem ended_event_witness :
    refsGet (endedListener 1 sLoopEnded).audioRefs 1 =
      some { paused := false, time := 0, volume := mkRat 7 10,
             playbackRate := 1, readyState := 4 } ∧
    (endedListener 1 sLoopEnded).playbackState = sLoopEnded.playbackState ∧
    endedListener 2 sLoopEnded = sLoopEnded := by
  have hmain := ended_event_spec sLoopEnded 1
    { paused := true, time := 120, volume := mkRat 7 10, playbackRate := 1,
      readyState := 4 }
    (by decide) (by decide)
  exact ⟨(hmain.1 (by decide)).1, (hmain.1 (by decide)).2,
    hmain.2.2 2 (by decide)⟩
